import Mathlib

/-!
Verification development for the two image utilities of this repository:
`tools/crop-for-apple.py` and `tools/generate-feature-graphic.py`.

Modelling conventions:
* Python float division is read with exact rationals (`ℚ`) where the
  outcome is robust to double rounding; where it is not, the IEEE-754
  binary64 arithmetic the program actually performs is modelled exactly
  by `fl64` below.
* Python `int()` (truncation toward zero) is `pyInt`.
* Python `//` (floor division) on integers is `Int.fdiv`.
* A PIL image is a `PImage`: width, height and a total pixel function that
  is zero outside the image rectangle (`Image.crop` pads out-of-bounds
  regions with zero, and pixels of a produced image are only meaningful
  inside its rectangle, so produced images are kept in this masked form).
* Resampling filters (`Image.resize` with LANCZOS) synthesize pixel content
  in a way outside the scope of this model, so every function that may
  resize is parametrised by an arbitrary `resample` content generator;
  `resize` still fixes the exact output dimensions, as PIL does.
-/

namespace CoachVocab

/-- Python `int()` applied to a rational: truncation toward zero. -/
def pyInt (q : ℚ) : Int := if 0 ≤ q then ⌊q⌋ else ⌈q⌉

/-- An in-memory raster image: width, height, pixel lookup (masked to 0
outside the rectangle for images produced by the operations below). -/
@[ext] structure PImage where
  width : Nat
  height : Nat
  pix : Nat → Nat → Nat

/-- PIL `Image.crop((left, top, right, bottom))`: the result has size
`(right - left, bottom - top)`; pixel `(x, y)` of the result is pixel
`(left + x, top + y)` of the source when that position is inside the
source, and 0 (padding) otherwise. -/
def crop (img : PImage) (left top right bottom : Int) : PImage where
  width := (right - left).toNat
  height := (bottom - top).toNat
  pix := fun x y =>
    if x < (right - left).toNat ∧ y < (bottom - top).toNat ∧
        0 ≤ left + x ∧ left + x < (img.width : Int) ∧
        0 ≤ top + y ∧ top + y < (img.height : Int) then
      img.pix (left + x).toNat (top + y).toNat
    else 0

/-- A resampling content generator: given the source image, the requested
output size and an output position, produce the resampled pixel value.
Stands for PIL's LANCZOS filter, whose numeric content is not modelled. -/
def Resample : Type := PImage → Nat → Nat → Nat → Nat → Nat

/-- PIL `Image.resize((w, h), LANCZOS)`: the result has exactly the
requested size; its content is produced by the resampling filter. -/
def resize (resample : Resample) (img : PImage) (w h : Nat) : PImage where
  width := w
  height := h
  pix := fun x y => if x < w ∧ y < h then resample img w h x y else 0

/-! ### tools/crop-for-apple.py -/

/-- `APPLE_DIMENSIONS` of crop-for-apple.py (insertion-ordered dict). -/
def APPLE_DIMENSIONS : List (String × (Nat × Nat)) :=
  [("6.7", (1284, 2778)), ("6.5", (1242, 2688))]

/-- `DEFAULT_SIZE` of crop-for-apple.py. -/
def DEFAULT_SIZE : String := "6.7"

/-- `main` of crop-for-apple.py, size-key selection: `size_key = DEFAULT_SIZE`,
overridden by `sys.argv[1]` when present and a key of `APPLE_DIMENSIONS`.
`argv1` is `sys.argv[1]` when `len(sys.argv) > 1`, else `none`. -/
def selectSizeKey (argv1 : Option String) : String :=
  match argv1 with
  | some a => if (APPLE_DIMENSIONS.lookup a).isSome then a else DEFAULT_SIZE
  | none => DEFAULT_SIZE

/-- `target_width, target_height = APPLE_DIMENSIONS[size_key]`: the lookup is
total because `selectSizeKey` always yields a key of the table; the `getD`
default is never reached. -/
def targetDimensions (argv1 : Option String) : Nat × Nat :=
  (APPLE_DIMENSIONS.lookup (selectSizeKey argv1)).getD (0, 0)

/-- `scale = max(target_width / img_width, target_height / img_height)`
from `crop_center`, read with exact rational division (the program divides
in binary64; see `ccScaleF` below for that reading). -/
def ccScale (img : PImage) (target_width target_height : Nat) : ℚ :=
  max ((target_width : ℚ) / (img.width : ℚ)) ((target_height : ℚ) / (img.height : ℚ))

/-- `new_width = int(img_width * scale)` from `crop_center`. -/
def ccNewWidth (img : PImage) (target_width target_height : Nat) : Nat :=
  (pyInt ((img.width : ℚ) * ccScale img target_width target_height)).toNat

/-- `new_height = int(img_height * scale)` from `crop_center`. -/
def ccNewHeight (img : PImage) (target_width target_height : Nat) : Nat :=
  (pyInt ((img.height : ℚ) * ccScale img target_width target_height)).toNat

/-- The image after `crop_center`'s conditional upscale step: resized to
`(new_width, new_height)` when either source dimension is below the
corresponding target dimension, unchanged otherwise. -/
def ccScaled (resample : Resample) (img : PImage)
    (target_width target_height : Nat) : PImage :=
  if img.width < target_width ∨ img.height < target_height then
    resize resample img (ccNewWidth img target_width target_height)
      (ccNewHeight img target_width target_height)
  else img

/-- `left = (img_width - target_width) // 2` from `crop_center`, computed on
the possibly upscaled image. -/
def ccLeft (resample : Resample) (img : PImage)
    (target_width target_height : Nat) : Int :=
  Int.fdiv (((ccScaled resample img target_width target_height).width : Int) - (target_width : Int)) 2

/-- `top = (img_height - target_height) // 2` from `crop_center`. -/
def ccTop (resample : Resample) (img : PImage)
    (target_width target_height : Nat) : Int :=
  Int.fdiv (((ccScaled resample img target_width target_height).height : Int) - (target_height : Int)) 2

/-- `crop_center` of crop-for-apple.py: optional proportional upscale when
the source is smaller than the target in either dimension, then a centered
crop of exactly `target_width × target_height`. -/
def crop_center (resample : Resample) (image : PImage)
    (target_width target_height : Nat) : PImage :=
  let scaled := ccScaled resample image target_width target_height
  let left := ccLeft resample image target_width target_height
  let top := ccTop resample image target_width target_height
  crop scaled left top (left + (target_width : Int)) (top + (target_height : Int))

/-- `main` of crop-for-apple.py, exit behaviour and success counting.
`inputDirExists` models `INPUT_DIR.exists()`; `itemOk` holds one Boolean per
enumerated PNG (`true` iff its open/crop/save raises no exception; an empty
list models "no PNG images found").  Returns `(exit code, success count)`:
`sys.exit(1)` on a missing directory or an empty image list; otherwise the
per-item loop catches every exception and `main` returns normally (exit 0),
whatever the success count. -/
def cropMain (inputDirExists : Bool) (itemOk : List Bool) : Nat × Nat :=
  if inputDirExists = false then (1, 0)
  else if itemOk = [] then (1, 0)
  else (0, itemOk.count true)

/-! ### IEEE binary64 (Python float) semantics

The exact-rational reading of `crop_center`'s scale computation above is
adequate for the claims whose outcome does not depend on double rounding.
The program, however, computes `scale`, `img_width * scale` and
`img_height * scale` in Python floats, i.e. IEEE-754 binary64 with round
to nearest, ties to even.  The definitions below model that arithmetic
exactly (as rationals of the form `m * 2^e` with 53 significant bits), so
the rounding behaviour of the real program can be evaluated. -/

/-- Round a rational to the nearest integer, ties to even — the rounding
step of IEEE-754 round-to-nearest-even. -/
def roundTiesEven (q : ℚ) : Int :=
  let f := ⌊q⌋
  let r := q - (f : ℚ)
  if r < 1 / 2 then f
  else if 1 / 2 < r then f + 1
  else if f % 2 = 0 then f else f + 1

/-- Floor of the base-2 logarithm of a positive rational (the binary64
exponent of its leading bit). -/
def floorLog2 (q : ℚ) : Int :=
  if 1 ≤ q then (Nat.log2 ⌊q⌋.toNat : Int)
  else
    let k := Nat.log2 ⌊q⁻¹⌋.toNat
    if ((2 : ℚ) ^ k)⁻¹ ≤ q then -(k : Int) else -(k : Int) - 1

/-- The binary64 value nearest to a positive rational: the significand is
rounded to 53 bits, to nearest, ties to even. -/
def fl64Pos (q : ℚ) : ℚ :=
  let e : Int := floorLog2 q - 52
  ((roundTiesEven (q * (2 : ℚ) ^ (-e))) : ℚ) * (2 : ℚ) ^ e

/-- The result of a Python float operation: the correctly rounded binary64
value of the exact result (normal range; overflow, underflow and
subnormals do not arise in the values evaluated here). -/
def fl64 (q : ℚ) : ℚ :=
  if 0 < q then fl64Pos q else if q < 0 then -fl64Pos (-q) else 0

/-- `scale = max(target_width / img_width, target_height / img_height)`
as the program computes it: two binary64 divisions (the integer operands
convert to float exactly below 2^53), then Python `max`, an exact
comparison of the two float values. -/
def ccScaleF (img : PImage) (target_width target_height : Nat) : ℚ :=
  max (fl64 ((target_width : ℚ) / (img.width : ℚ)))
    (fl64 ((target_height : ℚ) / (img.height : ℚ)))

/-- `new_width = int(img_width * scale)` as the program computes it: a
binary64 multiplication, truncated by `int()`. -/
def ccNewWidthF (img : PImage) (target_width target_height : Nat) : Nat :=
  (pyInt (fl64 ((img.width : ℚ) * ccScaleF img target_width target_height))).toNat

/-- `new_height = int(img_height * scale)` as the program computes it: a
binary64 multiplication, truncated by `int()`. -/
def ccNewHeightF (img : PImage) (target_width target_height : Nat) : Nat :=
  (pyInt (fl64 ((img.height : ℚ) * ccScaleF img target_width target_height))).toNat

/-! ### tools/generate-feature-graphic.py -/

/-- `OUTPUT_WIDTH` of generate-feature-graphic.py. -/
def OUTPUT_WIDTH : Nat := 1024

/-- `OUTPUT_HEIGHT` of generate-feature-graphic.py. -/
def OUTPUT_HEIGHT : Nat := 500

/-- `new_width = int(current_height * target_ratio)` from `ensure_exact_size`,
where `target_ratio = target_width / target_height`. -/
def eesNewWidth (img : PImage) (target_width target_height : Nat) : Nat :=
  (pyInt ((img.height : ℚ) * ((target_width : ℚ) / (target_height : ℚ)))).toNat

/-- `left = (current_width - new_width) // 2` from `ensure_exact_size`. -/
def eesLeft (img : PImage) (target_width target_height : Nat) : Int :=
  Int.fdiv ((img.width : Int) - (eesNewWidth img target_width target_height : Int)) 2

/-- `new_height = int(current_width / target_ratio)` from `ensure_exact_size`. -/
def eesNewHeight (img : PImage) (target_width target_height : Nat) : Nat :=
  (pyInt ((img.width : ℚ) / ((target_width : ℚ) / (target_height : ℚ)))).toNat

/-- `top = (current_height - new_height) // 2` from `ensure_exact_size`. -/
def eesTop (img : PImage) (target_width target_height : Nat) : Int :=
  Int.fdiv ((img.height : Int) - (eesNewHeight img target_width target_height : Int)) 2

/-- The aspect-ratio crop step of `ensure_exact_size` (the `if/elif/else`
before the final resize): crop the sides when the source is relatively
wider than the target, crop top/bottom when relatively taller, otherwise
leave the image unchanged. -/
def aspectCropStep (image : PImage) (target_width target_height : Nat) : PImage :=
  let current_ratio : ℚ := (image.width : ℚ) / (image.height : ℚ)
  let target_ratio : ℚ := (target_width : ℚ) / (target_height : ℚ)
  if current_ratio > target_ratio then
    let left := eesLeft image target_width target_height
    crop image left 0 (left + (eesNewWidth image target_width target_height : Int)) (image.height : Int)
  else if current_ratio < target_ratio then
    let top := eesTop image target_width target_height
    crop image 0 top (image.width : Int) (top + (eesNewHeight image target_width target_height : Int))
  else image

/-- `ensure_exact_size` of generate-feature-graphic.py: aspect-ratio crop,
then resize to exactly `(target_width, target_height)`. -/
def ensure_exact_size (resample : Resample) (image : PImage)
    (target_width target_height : Nat) : PImage :=
  resize resample (aspectCropStep image target_width target_height)
    target_width target_height

/-- One part of the generative model's response.  `inline_data` is `some`
exactly when the part carries inline image data (Python:
`hasattr(part, 'inline_data') and part.inline_data is not None`), already
decoded to an image (the base64/bytes decoding is an I/O boundary not
modelled further).  `text` is the part's optional text attribute. -/
structure Part where
  inline_data : Option PImage
  text : Option String

/-- The scan of `generate_feature_graphic`'s loop: the first response part
carrying inline image data, if any. -/
def firstInlineImage : List Part → Option PImage
  | [] => none
  | p :: ps =>
    match p.inline_data with
    | some img => some img
    | none => firstInlineImage ps

/-- The diagnostic previews printed when no image is found: for each part
whose text attribute is present and truthy (non-empty), the first 80
characters with newlines replaced by spaces
(`part.text[:80].replace('\n', ' ')`). -/
def printedTextParts (parts : List Part) : List String :=
  parts.filterMap fun p =>
    match p.text with
    | some s => if s = "" then none else some ((s.take 80).replace "\n" " ")
    | none => none

/-- `generate_feature_graphic` of generate-feature-graphic.py, response
handling.  `flatten` stands for the RGBA/mode flattening onto a white
background (pixel modes are outside this model).  Returns
`(return value, file written to OUTPUT_DIR, diagnostic text previews)`:
on the first part with inline image data the image is normalised with
`ensure_exact_size` to `OUTPUT_WIDTH × OUTPUT_HEIGHT`, flattened, saved and
`True` is returned; otherwise the text previews are printed, nothing is
saved and `False` is returned. -/
def generate_feature_graphic (resample : Resample) (flatten : PImage → PImage)
    (parts : List Part) : Bool × Option PImage × List String :=
  match firstInlineImage parts with
  | some img =>
      (true, some (flatten (ensure_exact_size resample img OUTPUT_WIDTH OUTPUT_HEIGHT)), [])
  | none => (false, none, printedTextParts parts)

/-- `ICON_PATHS` existence is abstracted to one Boolean per candidate path;
`find_icon` returns the index of the first existing candidate (`None` when
no candidate exists). -/
def find_icon (iconExists : List Bool) : Option Nat :=
  iconExists.findIdx? id

/-- `models_to_try` of generate-feature-graphic.py's `main`. -/
def models_to_try : List String :=
  ["gemini-3-pro-image-preview", "gemini-2.5-flash-image"]

/-- Externally visible actions of generate-feature-graphic.py's `main`:
constructing the API client, the probe network call for one model
identifier, and the generation network call. -/
inductive Action where
  | mkClient : Action
  | probe : String → Action
  | generate : Action
deriving DecidableEq, Repr

/-- The model-selection loop of `main`: probe each candidate identifier in
order with a trivial request (a network call even when it fails) and stop
at the first success.  `probeOk m` models whether the probe request for
model `m` succeeds. -/
def pickModel (probeOk : String → Bool) : List String → Option String × List Action
  | [] => (none, [])
  | m :: ms =>
    if probeOk m then (some m, [Action.probe m])
    else
      let rest := pickModel probeOk ms
      (rest.1, Action.probe m :: rest.2)

/-- Environment of generate-feature-graphic.py's `main`: the
`GOOGLE_API_KEY` environment variable (`none` when unset), existence of the
icon candidates, probe outcomes, and the parts of the generation response. -/
structure FeatureEnv where
  apiKey : Option String
  iconExists : List Bool
  probeOk : String → Bool
  parts : List Part

/-- `main` of generate-feature-graphic.py.  Returns
`(exit code, actions performed, file written)`.  In order: exit 1 when
`GOOGLE_API_KEY` is unset or empty (Python truthiness of `api_key`) before
the client is constructed; construct the client; exit 1 when no icon
candidate exists; probe the models in order, exit 1 when none responds;
issue the generation request; exit 0 on success and 1 on failure. -/
def featureMain (resample : Resample) (flatten : PImage → PImage)
    (env : FeatureEnv) : Nat × List Action × Option PImage :=
  if env.apiKey.getD "" = "" then (1, [], none)
  else
    match find_icon env.iconExists with
    | none => (1, [Action.mkClient], none)
    | some _ =>
      let picked := pickModel env.probeOk models_to_try
      match picked.1 with
      | none => (1, Action.mkClient :: picked.2, none)
      | some _ =>
        let gen := generate_feature_graphic resample flatten env.parts
        if gen.1 then (0, Action.mkClient :: picked.2 ++ [Action.generate], gen.2.1)
        else (1, Action.mkClient :: picked.2 ++ [Action.generate], none)

/-! ### Helper lemmas -/

theorem pyInt_eq_floor {q : ℚ} (h : 0 ≤ q) : pyInt q = ⌊q⌋ := if_pos h

theorem natCast_le_pyInt {n : Nat} {q : ℚ} (h : (n : ℚ) ≤ q) :
    (n : Int) ≤ pyInt q := by
  have h0 : (0 : ℚ) ≤ q := le_trans (by positivity) h
  rw [pyInt_eq_floor h0]
  exact Int.le_floor.mpr (by exact_mod_cast h)

theorem pyInt_lt_natCast {n : Nat} {q : ℚ} (h0 : 0 ≤ q) (h : q < (n : ℚ)) :
    pyInt q < (n : Int) := by
  rw [pyInt_eq_floor h0]
  exact Int.floor_lt.mpr (by exact_mod_cast h)

theorem pyInt_nonneg {q : ℚ} (h0 : 0 ≤ q) : 0 ≤ pyInt q := by
  rw [pyInt_eq_floor h0]
  exact Int.floor_nonneg.mpr h0

theorem fdiv_two (a : Int) : Int.fdiv a 2 = a / 2 :=
  Int.fdiv_eq_ediv a (by decide)

/-- `roundTiesEven` at a rational strictly within half a unit of the
integer `m` returns `m` (no tie arises). -/
theorem roundTiesEven_eq (m : Int) (q : ℚ) (hlo : (m : ℚ) - 1 / 2 < q)
    (hhi : q < (m : ℚ) + 1 / 2) : roundTiesEven q = m := by
  simp only [roundTiesEven]
  by_cases hq : (m : ℚ) ≤ q
  · have hfl : ⌊q⌋ = m := Int.floor_eq_iff.mpr ⟨hq, by linarith⟩
    rw [hfl, if_pos (by linarith)]
  · push_neg at hq
    have hfl : ⌊q⌋ = m - 1 :=
      Int.floor_eq_iff.mpr ⟨by push_cast ; linarith, by push_cast ; linarith⟩
    rw [hfl, if_neg (by push_cast ; linarith), if_pos (by push_cast ; linarith)]
    omega

/-- `floorLog2` at a rational between consecutive powers of two. -/
theorem floorLog2_eq (E : Nat) (q : ℚ) (h1 : (2 : ℚ) ^ E ≤ q)
    (h2 : q < (2 : ℚ) ^ (E + 1)) : floorLog2 q = (E : Int) := by
  have hone : (1 : ℚ) ≤ (2 : ℚ) ^ E := one_le_pow₀ (by norm_num)
  rw [floorLog2, if_pos (le_trans hone h1)]
  have hlow : ((2 ^ E : Nat) : Int) ≤ ⌊q⌋ := Int.le_floor.mpr (by push_cast ; exact h1)
  have hhigh : ⌊q⌋ < ((2 ^ (E + 1) : Nat) : Int) := Int.floor_lt.mpr (by push_cast ; exact h2)
  have hlog : Nat.log2 ⌊q⌋.toNat = E := by
    rw [Nat.log2_eq_log_two]
    exact Nat.log_eq_of_pow_le_of_lt_pow (by omega) (by omega)
  exact_mod_cast hlog

/-- Evaluate `fl64` at a positive rational whose leading bit and rounded
53-bit significand are given. -/
theorem fl64_eq {q : ℚ} (hq : 0 < q) (E : Nat) (hE : E ≤ 52) (M : Int)
    (hlog : floorLog2 q = (E : Int))
    (hM : roundTiesEven (q * (2 : ℚ) ^ (52 - E)) = M) :
    fl64 q = (M : ℚ) / (2 : ℚ) ^ (52 - E) := by
  rw [fl64, if_pos hq]
  simp only [fl64Pos, hlog]
  have he : -((E : Int) - 52) = ((52 - E : Nat) : Int) := by omega
  rw [he, zpow_natCast, hM]
  have he2 : ((E : Int) - 52) = -(((52 - E : Nat) : Int)) := by omega
  rw [he2, zpow_neg, zpow_natCast, div_eq_mul_inv]

/-- A `crop` result has width `right - left` and height `bottom - top`
(clamped at zero), whatever the source. -/
theorem crop_size (img : PImage) (l t r b : Int) :
    (crop img l t r b).width = (r - l).toNat ∧
    (crop img l t r b).height = (b - t).toNat :=
  ⟨rfl, rfl⟩

/-- `crop_center` always returns an image of exactly the target size. -/
theorem crop_center_size (resample : Resample) (img : PImage) (tw th : Nat) :
    (crop_center resample img tw th).width = tw ∧
    (crop_center resample img tw th).height = th := by
  constructor <;> simp only [crop_center, crop] <;> omega

/-- When neither source dimension is below the target, the upscale branch
of `crop_center` is not taken. -/
theorem ccScaled_of_not_lt (resample : Resample) {img : PImage} {tw th : Nat}
    (h : ¬(img.width < tw ∨ img.height < th)) :
    ccScaled resample img tw th = img := by
  rw [ccScaled, if_neg h]

/-! ### C8: size-key selection of crop-for-apple.py -/

/-- C8: the target dimensions are `APPLE_DIMENSIONS[argv[1]]` when a first
positional argument is given and is a key of the dimension table, and
otherwise (no argument, or an unrecognized value) they silently fall back
to the default key "6.7", i.e. `(1284, 2778)`. -/
theorem targetDimensions_selection :
    (∀ s p, APPLE_DIMENSIONS.lookup s = some p → targetDimensions (some s) = p) ∧
    (∀ s, APPLE_DIMENSIONS.lookup s = none → targetDimensions (some s) = (1284, 2778)) ∧
    targetDimensions none = (1284, 2778) := by
  refine ⟨?_, ?_, rfl⟩
  · intro s p hs
    simp [targetDimensions, selectSizeKey, hs]
  · intro s hs
    simp only [targetDimensions, selectSizeKey, hs, Option.isSome_none,
      Bool.false_eq_true, if_false]
    rfl

/-- Witness for C8: the recognized key "6.5" selects `(1242, 2688)`, the
unrecognized value "banana" and a missing argument both fall back to
`(1284, 2778)`. -/
theorem targetDimensions_selection_witness :
    APPLE_DIMENSIONS.lookup "6.5" = some (1242, 2688) ∧
    targetDimensions (some "6.5") = (1242, 2688) ∧
    APPLE_DIMENSIONS.lookup "banana" = none ∧
    targetDimensions (some "banana") = (1284, 2778) ∧
    targetDimensions none = (1284, 2778) :=
  ⟨rfl, targetDimensions_selection.1 "6.5" (1242, 2688) rfl, rfl,
    targetDimensions_selection.2.1 "banana" rfl,
    targetDimensions_selection.2.2⟩

/-! ### C1: exit codes of crop-for-apple.py -/

/-- C1 counterexample: with the input directory present and a single
enumerated image whose processing fails (a complete failure), `main`
returns normally — process exit code 0, not 1 as the claim requires:
the per-item loop swallows every exception and no exit follows the loop. -/
theorem cropMain_complete_failure_cex :
    ([false] ≠ ([] : List Bool)) ∧ [false].count true = 0 ∧
    cropMain true [false] = (0, 0) ∧ (cropMain true [false]).1 ≠ 1 := by
  decide

/-- C1 amended: the cropper exits with code 1 exactly when the input
directory is missing or no PNG images are found in it; in every other run
— including runs where some or even all enumerated images fail to process
— it exits with code 0. -/
theorem cropMain_exit_code (inputDirExists : Bool) (itemOk : List Bool) :
    ((cropMain inputDirExists itemOk).1 = 1 ↔
      (inputDirExists = false ∨ itemOk = [])) ∧
    ((cropMain inputDirExists itemOk).1 = 0 ↔
      (inputDirExists = true ∧ itemOk ≠ [])) := by
  cases inputDirExists <;> cases itemOk <;> simp [cropMain]

/-! ### C7: missing credential in generate-feature-graphic.py -/

/-- C7: if the `GOOGLE_API_KEY` environment variable is unset, `main`
exits with code 1 having performed no action at all: no client is
constructed and no network call (model probe or generation request) is
attempted, and no file is written. -/
theorem featureMain_no_api_key (resample : Resample) (flatten : PImage → PImage)
    (env : FeatureEnv) (h : env.apiKey = none) :
    featureMain resample flatten env = (1, [], none) := by
  rw [featureMain, if_pos]
  rw [h]
  rfl

/-- Witness for C7 at a concrete environment with no API key. -/
theorem featureMain_no_api_key_witness :
    (FeatureEnv.mk none [true] (fun _ => true) []).apiKey = none ∧
    featureMain (fun _ _ _ _ _ => 0) id (FeatureEnv.mk none [true] (fun _ => true) [])
      = (1, [], none) :=
  ⟨rfl, featureMain_no_api_key (fun _ _ _ _ _ => 0) id _ rfl⟩

/-! ### C6: response without inline image data -/

theorem firstInlineImage_eq_none {parts : List Part}
    (h : ∀ p ∈ parts, p.inline_data = none) : firstInlineImage parts = none := by
  induction parts with
  | nil => rfl
  | cons p ps ih =>
    have hp : p.inline_data = none := h p (List.mem_cons_self p ps)
    rw [firstInlineImage, hp]
    exact ih fun q hq => h q (List.mem_cons_of_mem p hq)

theorem pickModel_isSome {probeOk : String → Bool} {ms : List String}
    (h : ∃ m ∈ ms, probeOk m = true) : (pickModel probeOk ms).1.isSome := by
  induction ms with
  | nil => simp at h
  | cons m ms ih =>
    by_cases hm : probeOk m = true
    · simp [pickModel, hm]
    · obtain ⟨x, hx, hpx⟩ := h
      rcases List.mem_cons.mp hx with rfl | hx
      · exact absurd hpx hm
      · simp only [pickModel, hm, if_false]
        exact ih ⟨x, hx, hpx⟩

/-- C6: when the generative model's response contains no part with inline
image data, `generate_feature_graphic` prints the textual parts received,
returns `False` without writing any output file, and `main` (reaching the
generation step: key present, icon found, a model responding) then exits
with code 1 writing nothing. -/
theorem generate_no_inline_image (resample : Resample) (flatten : PImage → PImage)
    (env : FeatureEnv)
    (hparts : ∀ p ∈ env.parts, p.inline_data = none)
    (hkey : env.apiKey.getD "" ≠ "")
    (hicon : (find_icon env.iconExists).isSome)
    (hprobe : ∃ m ∈ models_to_try, env.probeOk m = true) :
    generate_feature_graphic resample flatten env.parts
      = (false, none, printedTextParts env.parts) ∧
    (featureMain resample flatten env).1 = 1 ∧
    (featureMain resample flatten env).2.2 = none := by
  have hgen : generate_feature_graphic resample flatten env.parts
      = (false, none, printedTextParts env.parts) := by
    rw [generate_feature_graphic, firstInlineImage_eq_none hparts]
  refine ⟨hgen, ?_⟩
  obtain ⟨i, hi⟩ := Option.isSome_iff_exists.mp hicon
  obtain ⟨m, hm⟩ := Option.isSome_iff_exists.mp (pickModel_isSome hprobe)
  rw [featureMain, if_neg hkey, hi]
  simp [hm, hgen]

/-- Witness for C6 at a concrete environment whose response holds a single
text-only part. -/
theorem generate_no_inline_image_witness :
    (∀ p ∈ (FeatureEnv.mk (some "key") [true] (fun _ => true)
        [Part.mk none (some "hello")]).parts, p.inline_data = none) ∧
    generate_feature_graphic (fun _ _ _ _ _ => 0) id
        [Part.mk none (some "hello")]
      = (false, none, printedTextParts [Part.mk none (some "hello")]) ∧
    (featureMain (fun _ _ _ _ _ => 0) id
        (FeatureEnv.mk (some "key") [true] (fun _ => true)
          [Part.mk none (some "hello")])).1 = 1 ∧
    (featureMain (fun _ _ _ _ _ => 0) id
        (FeatureEnv.mk (some "key") [true] (fun _ => true)
          [Part.mk none (some "hello")])).2.2 = none := by
  have h : ∀ p ∈ [Part.mk none (some "hello")], p.inline_data = (none : Option PImage) := by
    intro p hp
    rw [List.mem_singleton.mp hp]
  exact ⟨h, generate_no_inline_image (fun _ _ _ _ _ => 0) id
    (FeatureEnv.mk (some "key") [true] (fun _ => true) [Part.mk none (some "hello")])
    h (by decide) (by decide)
    ⟨"gemini-3-pro-image-preview", List.mem_cons_self _ _, rfl⟩⟩

/-! ### C2: the centered crop box of crop_center can leave the image

In exact arithmetic `int(img_width * scale)` and `int(img_height * scale)`
cannot fall below the targets, but the program computes them in binary64:
at a 139 × 139 source with the default target (1284, 2778) the rounded
quotient `scale = fl64(2778 / 139)` multiplied back by 139 rounds to just
below 2778, `int()` truncates to 2777, and the crop box escapes the
image.  The lemmas below evaluate the float computation exactly. -/

/-- A small concrete source for the C2 evaluation: a 3 × 5 image. -/
def sampleSmall : PImage := PImage.mk 3 5 (fun x y => x + 10 * y)

/-- A trivial concrete resampling content generator. -/
def resample0 : Resample := fun _ _ _ _ _ => 0

/-- The 139 × 139 source on which the rounding slip shows. -/
def sample139 : PImage := PImage.mk 139 139 (fun x y => x + 139 * y)

/-- The double `2778 / 139` is `5625449534548218 * 2^-48`
(≈ 19.985611510791365, just below the exact quotient). -/
theorem fl64_div_2778_139 :
    fl64 ((2778 : ℚ) / 139) = (5625449534548218 : ℚ) / 2 ^ 48 :=
  fl64_eq (by norm_num) 4 (by norm_num) 5625449534548218
    (floorLog2_eq 4 _ (by norm_num) (by norm_num))
    (roundTiesEven_eq 5625449534548218 _ (by norm_num) (by norm_num))

/-- The double `1284 / 139` is `5200199569733558 * 2^-49` (≈ 9.2374…). -/
theorem fl64_div_1284_139 :
    fl64 ((1284 : ℚ) / 139) = (5200199569733558 : ℚ) / 2 ^ 49 :=
  fl64_eq (by norm_num) 3 (by norm_num) 5200199569733558
    (floorLog2_eq 3 _ (by norm_num) (by norm_num))
    (roundTiesEven_eq 5200199569733558 _ (by norm_num) (by norm_num))

/-- At the 139 × 139 source, `scale` as the program holds it is the
rounded `2778 / 139`. -/
theorem ccScaleF_139 :
    ccScaleF sample139 1284 2778 = (5625449534548218 : ℚ) / 2 ^ 48 := by
  simp only [ccScaleF, sample139, Nat.cast_ofNat]
  rw [fl64_div_1284_139, fl64_div_2778_139]
  rw [max_eq_right (by norm_num)]

/-- The double `139 * fl64(2778 / 139)` is `6108886603923455 * 2^-41`
(≈ 2777.9999999999995): the product rounds to just below 2778. -/
theorem fl64_prod_139 :
    fl64 ((139 : ℚ) * ((5625449534548218 : ℚ) / 2 ^ 48))
      = (6108886603923455 : ℚ) / 2 ^ 41 :=
  fl64_eq (by norm_num) 11 (by norm_num) 6108886603923455
    (floorLog2_eq 11 _ (by norm_num) (by norm_num))
    (roundTiesEven_eq 6108886603923455 _ (by norm_num) (by norm_num))

theorem ccNewWidthF_139 : ccNewWidthF sample139 1284 2778 = 2777 := by
  rw [ccNewWidthF, ccScaleF_139]
  simp only [sample139, Nat.cast_ofNat]
  rw [fl64_prod_139, pyInt_eq_floor (by norm_num)]
  norm_num
  decide

theorem ccNewHeightF_139 : ccNewHeightF sample139 1284 2778 = 2777 := by
  rw [ccNewHeightF, ccScaleF_139]
  simp only [sample139, Nat.cast_ofNat]
  rw [fl64_prod_139, pyInt_eq_floor (by norm_num)]
  norm_num
  decide

/-- C2: the claim fails on the program.  Under the binary64 float
arithmetic the code uses, a 139 × 139 source with the default target
(1284, 2778) takes the upscale branch, yet `int(img_height * scale)`
evaluates to 2777 < 2778 — the upscaled height falls below the target —
and `top = (2777 - 2778) // 2 = -1`, so the centered crop rectangle
leaves the resized image (PIL pads it); `crop_center` has no clamp. -/
theorem crop_center_rounding_bug :
    (sample139.width < 1284 ∨ sample139.height < 2778) ∧
    ccNewWidthF sample139 1284 2778 = 2777 ∧
    ccNewHeightF sample139 1284 2778 = 2777 ∧
    ccNewHeightF sample139 1284 2778 < 2778 ∧
    Int.fdiv ((ccNewHeightF sample139 1284 2778 : Int) - (2778 : Int)) 2 = -1 := by
  refine ⟨by decide, ccNewWidthF_139, ccNewHeightF_139, ?_, ?_⟩
  · rw [ccNewHeightF_139]
    decide
  · rw [ccNewHeightF_139]
    decide

/-! ### C3: center crop without upscale -/

/-- C3: for every source image with `width ≥ target_width` and
`height ≥ target_height`, `crop_center` returns an image of exactly
`(target_width, target_height)` whose content equals the sub-rectangle of
the source with origin `((width - target_width) // 2,
(height - target_height) // 2)`, and no resampling is applied: the result
does not depend on the resampling filter at all. -/
theorem crop_center_no_upscale (resample : Resample) (img : PImage) (tw th : Nat)
    (hw : tw ≤ img.width) (hh : th ≤ img.height) :
    (crop_center resample img tw th).width = tw ∧
    (crop_center resample img tw th).height = th ∧
    (∀ x y, x < tw → y < th →
      (crop_center resample img tw th).pix x y
        = img.pix ((img.width - tw) / 2 + x) ((img.height - th) / 2 + y)) ∧
    (∀ resample2 : Resample,
      crop_center resample2 img tw th = crop_center resample img tw th) := by
  have hcond : ¬(img.width < tw ∨ img.height < th) := by omega
  have hS : ∀ r : Resample, ccScaled r img tw th = img := fun r =>
    ccScaled_of_not_lt r hcond
  have hl : ∀ r : Resample,
      ccLeft r img tw th = ((img.width : Int) - (tw : Int)) / 2 := by
    intro r
    rw [ccLeft, hS r, fdiv_two]
  have ht : ∀ r : Resample,
      ccTop r img tw th = ((img.height : Int) - (th : Int)) / 2 := by
    intro r
    rw [ccTop, hS r, fdiv_two]
  refine ⟨(crop_center_size resample img tw th).1,
    (crop_center_size resample img tw th).2, ?_, ?_⟩
  · intro x y hx hy
    simp only [crop_center, hS, hl, ht, crop]
    split_ifs with hc
    · congr 1 <;> omega
    · exfalso
      omega
  · intro resample2
    simp only [crop_center, hS, hl, ht]

/-- A concrete 2000 × 3000 source for the C3 witness scenario. -/
def sample2000 : PImage := PImage.mk 2000 3000 (fun x y => x + 10000 * y)

/-- Witness for C3 at the 2000 × 3000 source and target (1284, 2778): the
crop origin is `(358, 111)` (`(2000 - 1284) / 2 = 358`,
`(3000 - 2778) / 2 = 111`). -/
theorem crop_center_no_upscale_witness :
    1284 ≤ sample2000.width ∧ 2778 ≤ sample2000.height ∧
    (2000 - 1284) / 2 = 358 ∧ (3000 - 2778) / 2 = 111 ∧
    (crop_center resample0 sample2000 1284 2778).width = 1284 ∧
    (crop_center resample0 sample2000 1284 2778).height = 2778 ∧
    (crop_center resample0 sample2000 1284 2778).pix 5 7
      = sample2000.pix (358 + 5) (111 + 7) := by
  have h := crop_center_no_upscale resample0 sample2000 1284 2778
    (by decide) (by decide)
  refine ⟨by decide, by decide, by decide, by decide, h.1, h.2.1, ?_⟩
  have hp := h.2.2.1 5 7 (by decide) (by decide)
  have harg : (sample2000.width - 1284) / 2 = 358 ∧
      (sample2000.height - 2778) / 2 = 111 := by decide
  rw [hp, harg.1, harg.2]

/-! ### C4: center crop with proportional upscale -/

/-- C4: for every source image with positive dimensions that is smaller
than the target in either dimension, `crop_center` first uniformly
upscales by `scale = max(target_width / src_width, target_height /
src_height)` to `(int(src_width * scale), int(src_height * scale))` and
still returns an image of exactly `(target_width, target_height)`. -/
theorem crop_center_upscale (resample : Resample) (img : PImage) (tw th : Nat)
    (hw : 0 < img.width) (hh : 0 < img.height)
    (hbranch : img.width < tw ∨ img.height < th) :
    (crop_center resample img tw th).width = tw ∧
    (crop_center resample img tw th).height = th ∧
    ccScale img tw th
      = max ((tw : ℚ) / (img.width : ℚ)) ((th : ℚ) / (img.height : ℚ)) ∧
    ccScaled resample img tw th
      = resize resample img
          (pyInt ((img.width : ℚ) * ccScale img tw th)).toNat
          (pyInt ((img.height : ℚ) * ccScale img tw th)).toNat := by
  refine ⟨(crop_center_size resample img tw th).1,
    (crop_center_size resample img tw th).2, rfl, ?_⟩
  rw [ccScaled, if_pos hbranch]
  rfl

/-- A concrete 800 × 800 source for the C4 witness scenario. -/
def sample800 : PImage := PImage.mk 800 800 (fun x y => x + 1000 * y)

theorem sample800_scale : ccScale sample800 1284 2778 = (2778 : ℚ) / 800 := by
  rw [ccScale]
  rw [show ((sample800.width : ℚ)) = 800 by norm_num [sample800]]
  rw [show ((sample800.height : ℚ)) = 800 by norm_num [sample800]]
  rw [max_eq_right (by norm_num)]
  norm_num

theorem sample800_new_width : ccNewWidth sample800 1284 2778 = 2778 := by
  rw [ccNewWidth, sample800_scale]
  rw [show ((sample800.width : ℚ)) = 800 by norm_num [sample800]]
  rw [pyInt_eq_floor (by norm_num)]
  norm_num
  decide

theorem sample800_new_height : ccNewHeight sample800 1284 2778 = 2778 := by
  rw [ccNewHeight, sample800_scale]
  rw [show ((sample800.height : ℚ)) = 800 by norm_num [sample800]]
  rw [pyInt_eq_floor (by norm_num)]
  norm_num
  decide

/-- Witness for C4 at the 800 × 800 source and target (1284, 2778):
`scale = 2778 / 800 = 3.4725`, the resized image is 2778 × 2778, the crop
origin is `(747, 0)` and the output is 1284 × 2778. -/
theorem crop_center_upscale_witness :
    0 < sample800.width ∧ 0 < sample800.height ∧
    (sample800.width < 1284 ∨ sample800.height < 2778) ∧
    (crop_center resample0 sample800 1284 2778).width = 1284 ∧
    (crop_center resample0 sample800 1284 2778).height = 2778 ∧
    ccScale sample800 1284 2778 = (34725 : ℚ) / 10000 ∧
    ccNewWidth sample800 1284 2778 = 2778 ∧
    ccNewHeight sample800 1284 2778 = 2778 ∧
    ccLeft resample0 sample800 1284 2778 = 747 ∧
    ccTop resample0 sample800 1284 2778 = 0 := by
  have h := crop_center_upscale resample0 sample800 1284 2778
    (by decide) (by decide) (by decide)
  have hbranch : sample800.width < 1284 ∨ sample800.height < 2778 := by decide
  have hleft : ccLeft resample0 sample800 1284 2778 = 747 := by
    rw [ccLeft, ccScaled, if_pos hbranch]
    show Int.fdiv ((ccNewWidth sample800 1284 2778 : Int) - (1284 : Int)) 2 = 747
    rw [sample800_new_width]
    decide
  have htop : ccTop resample0 sample800 1284 2778 = 0 := by
    rw [ccTop, ccScaled, if_pos hbranch]
    show Int.fdiv ((ccNewHeight sample800 1284 2778 : Int) - (2778 : Int)) 2 = 0
    rw [sample800_new_height]
    decide
  refine ⟨by decide, by decide, hbranch, h.1, h.2.1, ?_, sample800_new_width,
    sample800_new_height, hleft, htop⟩
  rw [sample800_scale]
  norm_num

/-! ### C5: ensure_exact_size output size and crop axis -/

/-- C5: for every source image with positive dimensions,
`ensure_exact_size` returns an image of exactly
`(target_width, target_height)`, and it never crops the axis that already
matches the target ratio: when `current_ratio > target_ratio` the full
height is kept and only the width is cropped to
`int(current_height * target_ratio)`; when `current_ratio < target_ratio`
the full width is kept and only the height is cropped to
`int(current_width / target_ratio)`; when the ratios are equal no crop
occurs. -/
theorem ensure_exact_size_spec (resample : Resample) (img : PImage)
    (tw th : Nat) (hw : 0 < img.width) (hh : 0 < img.height)
    (htw : 0 < tw) (hth : 0 < th) :
    (ensure_exact_size resample img tw th).width = tw ∧
    (ensure_exact_size resample img tw th).height = th ∧
    ((img.width : ℚ) / (img.height : ℚ) > (tw : ℚ) / (th : ℚ) →
      (aspectCropStep img tw th).height = img.height ∧
      (aspectCropStep img tw th).width
        = (pyInt ((img.height : ℚ) * ((tw : ℚ) / (th : ℚ)))).toNat) ∧
    ((img.width : ℚ) / (img.height : ℚ) < (tw : ℚ) / (th : ℚ) →
      (aspectCropStep img tw th).width = img.width ∧
      (aspectCropStep img tw th).height
        = (pyInt ((img.width : ℚ) / ((tw : ℚ) / (th : ℚ)))).toNat) ∧
    ((img.width : ℚ) / (img.height : ℚ) = (tw : ℚ) / (th : ℚ) →
      aspectCropStep img tw th = img) := by
  refine ⟨rfl, rfl, ?_, ?_, ?_⟩
  · intro hgt
    rw [aspectCropStep, if_pos hgt]
    constructor
    · show ((img.height : Int) - 0).toNat = img.height
      omega
    · show ((eesLeft img tw th + (eesNewWidth img tw th : Int))
          - eesLeft img tw th).toNat
        = (pyInt ((img.height : ℚ) * ((tw : ℚ) / (th : ℚ)))).toNat
      rw [show (pyInt ((img.height : ℚ) * ((tw : ℚ) / (th : ℚ)))).toNat
          = eesNewWidth img tw th from rfl]
      omega
  · intro hlt
    rw [aspectCropStep, if_neg (by exact not_lt.mpr (le_of_lt hlt)), if_pos hlt]
    constructor
    · show ((img.width : Int) - 0).toNat = img.width
      omega
    · show ((eesTop img tw th + (eesNewHeight img tw th : Int))
          - eesTop img tw th).toNat
        = (pyInt ((img.width : ℚ) / ((tw : ℚ) / (th : ℚ)))).toNat
      rw [show (pyInt ((img.width : ℚ) / ((tw : ℚ) / (th : ℚ)))).toNat
          = eesNewHeight img tw th from rfl]
      omega
  · intro heq
    rw [aspectCropStep, if_neg (by rw [heq]; exact lt_irrefl _),
      if_neg (by rw [heq]; exact lt_irrefl _)]

/-- A concrete 300 × 100 source for the C5 witness (relatively wider than
the 1024 × 500 target). -/
def sample300 : PImage := PImage.mk 300 100 (fun x y => x + 500 * y)

/-- Witness for C5 at the 300 × 100 source and the script's
1024 × 500 target: the source is relatively wider, the full height is kept
and the width is cropped. -/
theorem ensure_exact_size_spec_witness :
    0 < sample300.width ∧ 0 < sample300.height ∧ 0 < OUTPUT_WIDTH ∧ 0 < OUTPUT_HEIGHT ∧
    (ensure_exact_size resample0 sample300 OUTPUT_WIDTH OUTPUT_HEIGHT).width = OUTPUT_WIDTH ∧
    (ensure_exact_size resample0 sample300 OUTPUT_WIDTH OUTPUT_HEIGHT).height = OUTPUT_HEIGHT ∧
    (sample300.width : ℚ) / (sample300.height : ℚ)
      > (OUTPUT_WIDTH : ℚ) / (OUTPUT_HEIGHT : ℚ) ∧
    (aspectCropStep sample300 OUTPUT_WIDTH OUTPUT_HEIGHT).height = sample300.height := by
  have h := ensure_exact_size_spec resample0 sample300 OUTPUT_WIDTH OUTPUT_HEIGHT
    (by decide) (by decide) (by decide) (by decide)
  have hgt : (sample300.width : ℚ) / (sample300.height : ℚ)
      > (OUTPUT_WIDTH : ℚ) / (OUTPUT_HEIGHT : ℚ) := by
    rw [show ((sample300.width : ℚ)) = 300 by norm_num [sample300]]
    rw [show ((sample300.height : ℚ)) = 100 by norm_num [sample300]]
    rw [show ((OUTPUT_WIDTH : ℚ)) = 1024 by norm_num [OUTPUT_WIDTH]]
    rw [show ((OUTPUT_HEIGHT : ℚ)) = 500 by norm_num [OUTPUT_HEIGHT]]
    norm_num
  exact ⟨by decide, by decide, by decide, by decide, h.1, h.2.1, hgt,
    by rw [show sample300.height = 100 from rfl]; exact ((h.2.2.1 hgt).1).trans rfl⟩

/-! ### C9: the crop rectangle of ensure_exact_size is in bounds -/

/-- C9: for every source image with positive dimensions, the crop rectangle
computed inside `ensure_exact_size` lies within the source bounds: in the
wider branch `0 ≤ left` and `left + new_width ≤ current_width` (with
`new_width ≤ current_width` by integer truncation), and in the taller
branch `0 ≤ top` and `top + new_height ≤ current_height`; the crop step
never pads. -/
theorem ensure_exact_size_crop_in_bounds (img : PImage) (tw th : Nat)
    (hw : 0 < img.width) (hh : 0 < img.height)
    (htw : 0 < tw) (hth : 0 < th) :
    ((img.width : ℚ) / (img.height : ℚ) > (tw : ℚ) / (th : ℚ) →
      0 ≤ eesLeft img tw th ∧
      eesLeft img tw th + (eesNewWidth img tw th : Int) ≤ (img.width : Int) ∧
      eesNewWidth img tw th ≤ img.width) ∧
    ((img.width : ℚ) / (img.height : ℚ) < (tw : ℚ) / (th : ℚ) →
      0 ≤ eesTop img tw th ∧
      eesTop img tw th + (eesNewHeight img tw th : Int) ≤ (img.height : Int) ∧
      eesNewHeight img tw th ≤ img.height) := by
  have hh' : (0 : ℚ) < (img.height : ℚ) := by exact_mod_cast hh
  have htw' : (0 : ℚ) < (tw : ℚ) := by exact_mod_cast htw
  have hth' : (0 : ℚ) < (th : ℚ) := by exact_mod_cast hth
  constructor
  · intro hgt
    have hq0 : (0 : ℚ) ≤ (img.height : ℚ) * ((tw : ℚ) / (th : ℚ)) := by positivity
    have hqlt : (img.height : ℚ) * ((tw : ℚ) / (th : ℚ)) < (img.width : ℚ) := by
      have h2 : (img.height : ℚ) * ((tw : ℚ) / (th : ℚ))
          < (img.height : ℚ) * ((img.width : ℚ) / (img.height : ℚ)) :=
        mul_lt_mul_of_pos_left hgt hh'
      have h3 : (img.height : ℚ) * ((img.width : ℚ) / (img.height : ℚ))
          = (img.width : ℚ) := by
        field_simp
      rw [h3] at h2
      exact h2
    have h4 : (0 : Int) ≤ pyInt ((img.height : ℚ) * ((tw : ℚ) / (th : ℚ))) :=
      pyInt_nonneg hq0
    have h5 : pyInt ((img.height : ℚ) * ((tw : ℚ) / (th : ℚ))) < (img.width : Int) :=
      pyInt_lt_natCast hq0 hqlt
    have h6 : (eesNewWidth img tw th : Int)
        = pyInt ((img.height : ℚ) * ((tw : ℚ) / (th : ℚ))) := by
      rw [eesNewWidth]
      exact Int.toNat_of_nonneg h4
    refine ⟨?_, ?_, ?_⟩ <;> (first | (rw [eesLeft, fdiv_two]; omega) | omega)
  · intro hlt
    have hr : (0 : ℚ) < (tw : ℚ) / (th : ℚ) := by positivity
    have hq0 : (0 : ℚ) ≤ (img.width : ℚ) / ((tw : ℚ) / (th : ℚ)) := by positivity
    have hqlt : (img.width : ℚ) / ((tw : ℚ) / (th : ℚ)) < (img.height : ℚ) := by
      rw [div_lt_iff hr]
      have h2 : (img.width : ℚ) < ((tw : ℚ) / (th : ℚ)) * (img.height : ℚ) :=
        (div_lt_iff hh').mp hlt
      rw [mul_comm] at h2
      exact h2
    have h4 : (0 : Int) ≤ pyInt ((img.width : ℚ) / ((tw : ℚ) / (th : ℚ))) :=
      pyInt_nonneg hq0
    have h5 : pyInt ((img.width : ℚ) / ((tw : ℚ) / (th : ℚ))) < (img.height : Int) :=
      pyInt_lt_natCast hq0 hqlt
    have h6 : (eesNewHeight img tw th : Int)
        = pyInt ((img.width : ℚ) / ((tw : ℚ) / (th : ℚ))) := by
      rw [eesNewHeight]
      exact Int.toNat_of_nonneg h4
    refine ⟨?_, ?_, ?_⟩ <;> (first | (rw [eesTop, fdiv_two]; omega) | omega)

/-- Witness for C9 at the 300 × 100 source and the 1024 × 500 target
(the wider branch applies, with `new_width = int(100 * 1024/500) = 204`). -/
theorem ensure_exact_size_crop_in_bounds_witness :
    0 < sample300.width ∧ 0 < sample300.height ∧
    0 < OUTPUT_WIDTH ∧ 0 < OUTPUT_HEIGHT ∧
    (sample300.width : ℚ) / (sample300.height : ℚ)
      > (OUTPUT_WIDTH : ℚ) / (OUTPUT_HEIGHT : ℚ) ∧
    0 ≤ eesLeft sample300 OUTPUT_WIDTH OUTPUT_HEIGHT ∧
    eesLeft sample300 OUTPUT_WIDTH OUTPUT_HEIGHT
        + (eesNewWidth sample300 OUTPUT_WIDTH OUTPUT_HEIGHT : Int)
      ≤ (sample300.width : Int) ∧
    eesNewWidth sample300 OUTPUT_WIDTH OUTPUT_HEIGHT ≤ sample300.width := by
  have hgt : (sample300.width : ℚ) / (sample300.height : ℚ)
      > (OUTPUT_WIDTH : ℚ) / (OUTPUT_HEIGHT : ℚ) := by
    rw [show ((sample300.width : ℚ)) = 300 by norm_num [sample300]]
    rw [show ((sample300.height : ℚ)) = 100 by norm_num [sample300]]
    rw [show ((OUTPUT_WIDTH : ℚ)) = 1024 by norm_num [OUTPUT_WIDTH]]
    rw [show ((OUTPUT_HEIGHT : ℚ)) = 500 by norm_num [OUTPUT_HEIGHT]]
    norm_num
  have h := (ensure_exact_size_crop_in_bounds sample300 OUTPUT_WIDTH OUTPUT_HEIGHT
    (by decide) (by decide) (by decide) (by decide)).1 hgt
  exact ⟨by decide, by decide, by decide, by decide, hgt, h.1, h.2.1, h.2.2⟩

/-! ### C10: crop_center is idempotent -/

/-- Cropping a crop result again at `(0, 0, tw, th)` — its own full
rectangle — returns it unchanged: every pixel inside the rectangle is
copied as is, and pixels outside it are 0 on both sides. -/
theorem crop_crop_self (A : PImage) (l t : Int) (tw th : Nat) :
    crop (crop A l t (l + (tw : Int)) (t + (th : Int))) 0 0 (tw : Int) (th : Int)
      = crop A l t (l + (tw : Int)) (t + (th : Int)) := by
  refine PImage.ext ?_ ?_ ?_
  · simp only [crop]
    omega
  · simp only [crop]
    omega
  · funext x y
    simp only [crop]
    split_ifs <;>
      first
        | rfl
        | omega
        | (congr 1 <;> omega)

/-- C10: `crop_center` is idempotent: applying it a second time with the
same target to its own output returns that output unchanged — the output
already has exactly the target dimensions, so no upscale occurs and the
crop box is the whole image. -/
theorem crop_center_idempotent (resample : Resample) (img : PImage)
    (tw th : Nat) (hw : 0 < img.width) (hh : 0 < img.height)
    (htw : 0 < tw) (hth : 0 < th) :
    crop_center resample (crop_center resample img tw th) tw th
      = crop_center resample img tw th := by
  have hsz := crop_center_size resample img tw th
  have hcond : ¬((crop_center resample img tw th).width < tw ∨
      (crop_center resample img tw th).height < th) := by omega
  have hS : ccScaled resample (crop_center resample img tw th) tw th
      = crop_center resample img tw th := ccScaled_of_not_lt resample hcond
  have hl : ccLeft resample (crop_center resample img tw th) tw th = 0 := by
    rw [ccLeft, hS, hsz.1, sub_self]
    exact Int.zero_fdiv 2
  have ht : ccTop resample (crop_center resample img tw th) tw th = 0 := by
    rw [ccTop, hS, hsz.2, sub_self]
    exact Int.zero_fdiv 2
  show crop (ccScaled resample (crop_center resample img tw th) tw th)
      (ccLeft resample (crop_center resample img tw th) tw th)
      (ccTop resample (crop_center resample img tw th) tw th)
      (ccLeft resample (crop_center resample img tw th) tw th + (tw : Int))
      (ccTop resample (crop_center resample img tw th) tw th + (th : Int))
    = crop_center resample img tw th
  rw [hS, hl, ht, zero_add, zero_add]
  exact crop_crop_self (ccScaled resample img tw th)
    (ccLeft resample img tw th) (ccTop resample img tw th) tw th

/-- Witness for C10 at a concrete 3 × 5 source and target (2, 2). -/
theorem crop_center_idempotent_witness :
    0 < sampleSmall.width ∧ 0 < sampleSmall.height ∧ 0 < 2 ∧
    crop_center resample0 (crop_center resample0 sampleSmall 2 2) 2 2
      = crop_center resample0 sampleSmall 2 2 :=
  ⟨by decide, by decide, by decide,
    crop_center_idempotent resample0 sampleSmall 2 2
      (by decide) (by decide) (by decide) (by decide)⟩

end CoachVocab
